import Mathlib

/-
Verification of the Deribit option-data collector (src/config.py, src/database.py,
src/deribit_client.py, src/main.py) against its natural-language specification.

The Python code is shallowly embedded: each fallible operation is a total Lean
function over an explicit model of its inputs (decoded frames, transport event
scripts, HTTP outcomes), with exceptions modelled as Option/Except-style results
and side effects (log lines, rows inserted, requests sent) accumulated in
explicit state records.
-/

namespace RaghavCapital

/-! ## Frames and normalized records (src/deribit_client.py) -/

/-- A decoded data-push payload, the dict passed to
DeribitWebSocketClient.process_ticker_data (src/deribit_client.py:229).
Each field models dict.get: absent-or-null JSON values are none.
The greeks field is an optional dict whose delta entry is itself optional;
the timestamp field is epoch milliseconds. -/
structure TickerData where
  instrument_name : Option String
  mark_price : Option ℚ
  last_price : Option ℚ
  mark_iv : Option ℚ
  greeks : Option (Option ℚ)
  timestamp : Option ℕ
deriving DecidableEq

/-- The processed dict built by process_ticker_data and handed to the data
callback, which src/database.py:65 persists as one row. timestamp_ms keeps the
epoch-millisecond value fed to datetime.fromtimestamp. -/
structure NormalizedRecord where
  instrument_name : Option String
  price : Option ℚ
  volatility : Option ℚ
  delta : Option ℚ
  timestamp_ms : ℕ
deriving DecidableEq

/-- Python `a or b` on optional floats: None and 0.0 are falsy, so a missing or
zero first operand falls through to the second (src/deribit_client.py:234). -/
def pyOr (a b : Option ℚ) : Option ℚ :=
  match a with
  | none => b
  | some x => if x = 0 then b else some x

/-- DeribitWebSocketClient.process_ticker_data (src/deribit_client.py:229-238):
price is mark_price or last_price under Python truthiness, volatility is
mark_iv, delta is greeks.delta when the greeks dict is present (a missing dict
yields None), and the timestamp defaults to 0 epoch milliseconds when absent. -/
def process_ticker_data (t : TickerData) : NormalizedRecord :=
  { instrument_name := t.instrument_name
    price := pyOr t.mark_price t.last_price
    volatility := t.mark_iv
    delta := match t.greeks with
      | none => none
      | some g => g
    timestamp_ms := t.timestamp.getD 0 }

/-! ## Storage sink (src/database.py) -/

/-- DatabaseManager.insert_option_data (src/database.py:65-88) under an
external fault model: failOn says which insert calls (1-based index) the
database rejects with an exception. The option_data table declares
instrument_name TEXT NOT NULL (src/database.py:26), so a row whose
instrument_name is NULL also raises; there is no non-empty check. The result
is none when the insert raises, otherwise the table with the row appended. -/
def insert_option_data (failOn : ℕ → Bool) (idx : ℕ) (db : List NormalizedRecord)
    (r : NormalizedRecord) : Option (List NormalizedRecord) :=
  if failOn idx then none
  else if r.instrument_name.isNone then none
  else some (db ++ [r])

/-! ## Ingestion loop state (src/main.py, src/deribit_client.py) -/

/-- Observable effects accumulated while DeribitWebSocketClient.listen runs:
rows persisted (in order), insert attempts made, errors logged by
data_callback, errors logged by the inner handler of listen, and pings sent. -/
structure LoopState where
  inserted : List NormalizedRecord
  insertCalls : ℕ
  storageErrors : ℕ
  msgErrors : ℕ
  pings : ℕ
deriving DecidableEq

/-- The state before any message is processed. -/
def initState : LoopState :=
  { inserted := [], insertCalls := 0, storageErrors := 0, msgErrors := 0, pings := 0 }

/-- DeribitDataCollector.data_callback (src/main.py:34-45): try to insert the
record; any exception is caught and logged, dropping the record, and control
returns to the listen loop either way. -/
def data_callback (failOn : ℕ → Bool) (s : LoopState) (r : NormalizedRecord) : LoopState :=
  match insert_option_data failOn (s.insertCalls + 1) s.inserted r with
  | some db => { s with inserted := db, insertCalls := s.insertCalls + 1 }
  | none => { s with insertCalls := s.insertCalls + 1, storageErrors := s.storageErrors + 1 }

/-- One transport event observed by the recv call in
DeribitWebSocketClient.listen (src/deribit_client.py:200-224): a data-push
message carrying params.data, a parseable message without params.data, a
message json.loads cannot parse, an idle timeout of recv, or a transport-level
exception raised by recv. -/
inductive WsEvent
  | frame (t : TickerData)
  | nonData
  | badJson
  | idleTimeout
  | recvError
deriving DecidableEq

/-- One iteration of the while-true body of listen (src/deribit_client.py:203-223).
A data-push frame is processed and handed to the callback; a non-data message
is ignored; an unparseable message raises json.JSONDecodeError inside the inner
try, which the inner except-Exception handler catches and logs; an idle timeout
is answered with a ping; a transport-level recv error is likewise caught by the
inner except-Exception handler and logged, after which the loop continues on
the same session - there is no close, reconnect, or re-subscribe path. -/
def listenStep (failOn : ℕ → Bool) (s : LoopState) (e : WsEvent) : LoopState :=
  match e with
  | .frame t => data_callback failOn s (process_ticker_data t)
  | .nonData => s
  | .badJson => { s with msgErrors := s.msgErrors + 1 }
  | .idleTimeout => { s with pings := s.pings + 1 }
  | .recvError => { s with msgErrors := s.msgErrors + 1 }

/-- DeribitWebSocketClient.listen over a finite script of observed transport
events. The source loop is while True; the script is the finite window of
events observed, and the returned state is the accumulated effect with the
loop still running. -/
def listen (failOn : ℕ → Bool) (s : LoopState) (events : List WsEvent) : LoopState :=
  events.foldl (listenStep failOn) s

/-- A storage sink that never fails on its own (NOT NULL violations aside). -/
def failOn0 : ℕ → Bool := fun _ => false

/-- A storage sink that fails exactly on the 3rd insert call. -/
def failOn3 : ℕ → Bool := fun n => n == 3

/-! ## Instrument discovery and selection (src/deribit_client.py, src/main.py) -/

/-- One instrument descriptor from the discovery response, as read by
DeribitDataCollector.fetch_instruments (src/main.py:60-67) via dict.get. -/
structure Instrument where
  instrument_name : String
  is_active : Option Bool
  expiration_timestamp : Option ℕ
deriving DecidableEq

/-- The filter on src/main.py:65-66: instrument.get(is_active) is truthy and
instrument.get(expiration_timestamp, 0) exceeds the current epoch-millisecond
time. -/
def instOk (nowMs : ℕ) (d : Instrument) : Bool :=
  d.is_active.getD false && decide (nowMs < d.expiration_timestamp.getD 0)

/-- The selection loop of fetch_instruments (src/main.py:59-67): walk the
descriptors, stop once 5 names are collected, and append the name of each
descriptor passing the activity/expiry filter. -/
def selectLoop (nowMs : ℕ) : List Instrument → List String → List String
  | [], acc => acc
  | d :: rest, acc =>
      if 5 ≤ acc.length then acc
      else if instOk nowMs d then selectLoop nowMs rest (acc ++ [d.instrument_name])
      else selectLoop nowMs rest acc

/-- DeribitDataCollector.fetch_instruments (src/main.py:47-74): an empty
discovery result returns the empty list with a warning; otherwise the
selection loop runs over the first 10 descriptors only. -/
def fetch_instruments (nowMs : ℕ) (insts : List Instrument) : List String :=
  if insts = [] then []
  else selectLoop nowMs (insts.take 10) []

/-! ## REST discovery call (src/deribit_client.py:56-84) -/

/-- Outcome of the HTTP exchange inside DeribitRestClient.get_instruments:
either a response with a status code and an optional parsed result list (none
when response.json() fails or the result key is missing, both of which raise
inside the try block), or an exception raised before any response arrived. -/
inductive RestOutcome
  | response (status : ℕ) (body : Option (List Instrument))
  | exn
deriving DecidableEq

/-- The try-block body of get_instruments: on status 200 propagate whatever
extracting result from the JSON yields (none means a raised exception); on any
other status log the error text and return the empty list; an exception during
the exchange propagates. -/
def get_instruments_body (o : RestOutcome) : Option (List Instrument) :=
  match o with
  | .exn => none
  | .response s b => if s = 200 then b else some []

/-- DeribitRestClient.get_instruments (src/deribit_client.py:56-84): the
surrounding except-Exception handler catches every raised error, logs it, and
returns the empty list, so the call is total and never raises to its caller. -/
def get_instruments (o : RestOutcome) : List Instrument :=
  (get_instruments_body o).getD []

/-! ## Subscription (src/deribit_client.py:167-198) -/

/-- The channel name built for one instrument on src/deribit_client.py:173. -/
def channelOf (n : String) : String := "ticker." ++ n ++ ".raw"

/-- Python set.add for the subscribed_instruments set, modelled on a duplicate-free
list: membership is the set. -/
def setAdd (s : List String) (n : String) : List String :=
  if n ∈ s then s else s ++ [n]

/-- Python set.update on src/deribit_client.py:191. -/
def setUpdate (s : List String) (names : List String) : List String :=
  names.foldl setAdd s

/-- Outcome of the single subscription round trip: the acknowledgement carries
a result key, or is a parseable reply without one, or the send/recv raises. -/
inductive SubResponse
  | ack
  | nack
  | raiseErr
deriving DecidableEq

/-- Observable result of subscribe_to_ticker: the channel lists of the requests
sent (one entry per request), the subscribed_instruments set afterwards, and
whether the call raised to its caller. -/
structure SubOutcome where
  sentRequests : List (List String)
  subscribed : List String
  raised : Bool
deriving DecidableEq

/-- DeribitWebSocketClient.subscribe_to_ticker (src/deribit_client.py:167-198):
raise if not authenticated; otherwise build one request naming every channel,
send it, await one reply. A reply with a result key adds all names to
subscribed_instruments; a reply without one is logged and the set is untouched;
a raised send/recv error propagates (re-raised by the except handler) with the
set untouched. -/
def subscribe_to_ticker (isAuth : Bool) (subscribed : List String)
    (names : List String) (resp : SubResponse) : SubOutcome :=
  if !isAuth then { sentRequests := [], subscribed := subscribed, raised := true }
  else
    let channels := names.map channelOf
    match resp with
    | .ack => { sentRequests := [channels], subscribed := setUpdate subscribed names, raised := false }
    | .nack => { sentRequests := [channels], subscribed := subscribed, raised := false }
    | .raiseErr => { sentRequests := [channels], subscribed := subscribed, raised := true }

/-! ## The application run (src/main.py:89-115, 190-197) -/

/-- Observable effects of one DeribitDataCollector.run call: websocket
connections opened, websocket authentications performed, subscribe_to_ticker
calls made, the listen-loop state, and the process exit code. -/
structure RunResult where
  connects : ℕ
  auths : ℕ
  subscribeCalls : ℕ
  loopState : LoopState
  exitCode : ℕ
deriving DecidableEq

/-- DeribitDataCollector.run (src/main.py:89-115) wrapped by the entry point
(src/main.py:190-197), over the given discovery response and transport script.
If selection is empty, run logs an error and returns normally, so the process
exits 0. Otherwise start_websocket_client awaits ws_client.connect
(src/main.py:82), which opens the transport, authenticates once, and then
awaits listen (src/deribit_client.py:131); listen is a while-True loop that
the modelled events never break out of, so control never reaches the
subscribe_to_ticker call on src/main.py:83 and nothing raises out of run,
leaving the exit code 0. -/
def run (discovery : List Instrument) (nowMs : ℕ) (failOn : ℕ → Bool)
    (events : List WsEvent) : RunResult :=
  if (fetch_instruments nowMs discovery).isEmpty then
    { connects := 0, auths := 0, subscribeCalls := 0, loopState := initState, exitCode := 0 }
  else
    { connects := 1, auths := 1, subscribeCalls := 0,
      loopState := listen failOn initState events, exitCode := 0 }

/-! ## Formalized claim statements under test -/

/-- The event script contains a transport-level recv error preceded by at
least one delivered data-push frame. -/
def hasRecvErrorAfterFrame (events : List WsEvent) : Prop :=
  ∃ pre post, events = pre ++ WsEvent.recvError :: post ∧ ∃ t, WsEvent.frame t ∈ pre

/-- Claim under test: after a transport-level receive error that follows
delivered frames, the run re-connects, re-authenticates, and re-subscribes. -/
def claimReconnects (discovery : List Instrument) (nowMs : ℕ) (failOn : ℕ → Bool)
    (events : List WsEvent) : Prop :=
  hasRecvErrorAfterFrame events →
    2 ≤ (run discovery nowMs failOn events).connects
    ∧ 2 ≤ (run discovery nowMs failOn events).auths
    ∧ 1 ≤ (run discovery nowMs failOn events).subscribeCalls

/-- Claim under test: an absent or zero timestamp field yields the current
ingestion time, and a present non-zero one is used as is. -/
def claimObservedAt (t : TickerData) (nowMs : ℕ) : Prop :=
  ((t.timestamp = none ∨ t.timestamp = some 0) → (process_ticker_data t).timestamp_ms = nowMs)
  ∧ (∀ ms, t.timestamp = some ms → ms ≠ 0 → (process_ticker_data t).timestamp_ms = ms)

/-- Claim under test: a present mark price (zero included) is always the
record price; last price is used only when mark price is absent. -/
def claimMarkPrice (t : TickerData) : Prop :=
  (∀ q, t.mark_price = some q → (process_ticker_data t).price = some q)
  ∧ (t.mark_price = none → (process_ticker_data t).price = t.last_price)

/-- Claim under test: a data-push frame missing the instrument identity field
produces no record, so nothing is handed to the storage sink. -/
def claimNoNamelessHandoff (t : TickerData) : Prop :=
  t.instrument_name = none →
    (listen failOn0 initState [WsEvent.frame t]).insertCalls = 0

/-- How one collector process ends, classifying the exits of the entry point
(src/main.py:190-197). run returns normally (empty discovery included, and
the modelled transport scripts, over which listen keeps looping); or an
exception raised during startup (Config.validate on missing credentials,
src/main.py:95, or a failed websocket connect/authenticate re-raised on
src/deribit_client.py:133-135) escapes run; or a mid-run error escapes
listen: an exception raised while sending the keepalive ping inside the
except-TimeoutError block (src/deribit_client.py:213-220) is not caught by
the inner handler and reaches the outer handler of listen, which logs and
re-raises it (src/deribit_client.py:225-227) all the way out of run; or the
process is explicitly terminated (SIGINT/SIGTERM, whose handler calls
sys.exit(0) on src/main.py:162-165, or KeyboardInterrupt caught on
src/main.py:193). -/
inductive RunOutcome
  | normalReturn
  | raisedStartup
  | raisedMidRun
  | keyboardInterrupt
deriving DecidableEq

/-- The process exit code for each outcome, from src/main.py:190-197: a
normal return of asyncio.run exits 0; any Exception escaping it hits
sys.exit(1), whether it was raised at startup or mid-run; explicit
termination exits 0 (the signal handler calls sys.exit(0), and a caught
KeyboardInterrupt falls off the end of the module). -/
def exit_code : RunOutcome → ℕ
  | .normalReturn => 0
  | .raisedStartup => 1
  | .raisedMidRun => 1
  | .keyboardInterrupt => 0

/-- Claim under test, both halves: when selection comes back empty the
process exits non-zero (failing fatally), and the process exits non-zero
only on a fatal startup failure or explicit termination. -/
def claimEmptyExitsNonzero (discovery : List Instrument) (nowMs : ℕ)
    (failOn : ℕ → Bool) (events : List WsEvent) (o : RunOutcome) : Prop :=
  (fetch_instruments nowMs discovery = [] →
    (run discovery nowMs failOn events).exitCode ≠ 0)
  ∧ (exit_code o ≠ 0 → o = RunOutcome.raisedStartup ∨ o = RunOutcome.keyboardInterrupt)

/-- Claim under test: every record the sink accepts has a present and
non-empty instrument name. -/
def claimPersistedNamed (t : TickerData) (idx : ℕ) (db : List NormalizedRecord) : Prop :=
  ∀ db2, insert_option_data failOn0 idx db (process_ticker_data t) = some db2 →
    (process_ticker_data t).instrument_name ≠ none
    ∧ (process_ticker_data t).instrument_name ≠ some ""

/-! ## Concrete inputs used by counterexamples and witnesses -/

/-- A well-formed frame for instrument BTC-A. -/
def tGoodA : TickerData :=
  { instrument_name := some "BTC-A", mark_price := some 100, last_price := none
    mark_iv := some 50, greeks := none, timestamp := some 5 }

/-- A well-formed frame for instrument BTC-B. -/
def tGoodB : TickerData :=
  { instrument_name := some "BTC-B", mark_price := some 200, last_price := none
    mark_iv := none, greeks := some (some 1), timestamp := some 6 }

/-- A well-formed frame for instrument BTC-C. -/
def tGoodC : TickerData :=
  { instrument_name := some "BTC-C", mark_price := none, last_price := some 300
    mark_iv := none, greeks := none, timestamp := some 7 }

/-- A data-push frame with no timestamp field. -/
def tStale : TickerData :=
  { instrument_name := some "BTC-PERPETUAL", mark_price := some 1, last_price := none
    mark_iv := none, greeks := none, timestamp := none }

/-- A data-push frame with a non-zero timestamp field. -/
def tFresh : TickerData :=
  { instrument_name := some "BTC-PERPETUAL", mark_price := some 1, last_price := none
    mark_iv := none, greeks := none, timestamp := some 1700000000000 }

/-- A frame whose mark price is present but 0.0, with a last price present. -/
def tZeroMark : TickerData :=
  { instrument_name := some "BTC-X", mark_price := some 0
    last_price := some (41000.5 : ℚ), mark_iv := none, greeks := none, timestamp := some 1 }

/-- A frame with a non-zero mark price. -/
def tMark : TickerData :=
  { instrument_name := some "BTC-X", mark_price := some 42, last_price := some 7
    mark_iv := none, greeks := none, timestamp := some 1 }

/-- A data-push frame missing the instrument identity field. -/
def tNoName : TickerData :=
  { instrument_name := none, mark_price := some 1, last_price := none
    mark_iv := none, greeks := none, timestamp := some 5 }

/-- A data-push frame whose instrument name is the empty string. -/
def tEmptyName : TickerData :=
  { instrument_name := some "", mark_price := some 2, last_price := none
    mark_iv := none, greeks := none, timestamp := some 7 }

/-- A record carrying only an instrument name and a timestamp, with price,
volatility, and delta all absent. -/
def bareRecord (nm : String) (ts : ℕ) : NormalizedRecord :=
  { instrument_name := some nm, price := none, volatility := none
    delta := none, timestamp_ms := ts }

/-- A one-instrument discovery response that passes selection at time 1000. -/
def demoDiscovery : List Instrument :=
  [{ instrument_name := "BTC-A", is_active := some true, expiration_timestamp := some 2000 }]

/-- A discovery response with 10 descriptors: 8 active and unexpired at time
1000, and 2 expired (positions 3 and 7). -/
def demo10 : List Instrument :=
  [ { instrument_name := "I1", is_active := some true, expiration_timestamp := some 2000 }
  , { instrument_name := "I2", is_active := some true, expiration_timestamp := some 2000 }
  , { instrument_name := "I3", is_active := some true, expiration_timestamp := some 500 }
  , { instrument_name := "I4", is_active := some true, expiration_timestamp := some 2000 }
  , { instrument_name := "I5", is_active := some true, expiration_timestamp := some 2000 }
  , { instrument_name := "I6", is_active := some true, expiration_timestamp := some 2000 }
  , { instrument_name := "I7", is_active := some true, expiration_timestamp := some 500 }
  , { instrument_name := "I8", is_active := some true, expiration_timestamp := some 2000 }
  , { instrument_name := "I9", is_active := some true, expiration_timestamp := some 2000 }
  , { instrument_name := "IA", is_active := some true, expiration_timestamp := some 2000 } ]

/-! ## Helper lemmas -/

/-- Membership after a single Python set.add. -/
theorem mem_setAdd (s : List String) (m n : String) :
    n ∈ setAdd s m ↔ n ∈ s ∨ n = m := by
  by_cases h : m ∈ s
  · simp only [setAdd, if_pos h]
    constructor
    · exact Or.inl
    · rintro (hs | rfl)
      · exact hs
      · exact h
  · simp [setAdd, if_neg h]

/-- Membership after Python set.update. -/
theorem mem_setUpdate (names : List String) (s : List String) (n : String) :
    n ∈ setUpdate s names ↔ n ∈ s ∨ n ∈ names := by
  induction names generalizing s with
  | nil => simp [setUpdate]
  | cons m rest ih =>
      have hstep : setUpdate s (m :: rest) = setUpdate (setAdd s m) rest := rfl
      rw [hstep, ih (setAdd s m), mem_setAdd]
      simp only [List.mem_cons]
      tauto

/-- The selection loop of fetch_instruments collects the names of the filtered
descriptors up to the remaining budget. -/
theorem selectLoop_eq (nowMs : ℕ) (l : List Instrument) (acc : List String)
    (h : acc.length ≤ 5) :
    selectLoop nowMs l acc =
      acc ++ ((l.filter (instOk nowMs)).map
        (fun d => d.instrument_name)).take (5 - acc.length) := by
  induction l generalizing acc with
  | nil => simp [selectLoop]
  | cons d rest ih =>
      rw [selectLoop]
      by_cases h5 : 5 ≤ acc.length
      · have hlen : acc.length = 5 := le_antisymm h h5
        rw [if_pos h5, hlen]
        simp
      · rw [if_neg h5]
        by_cases hok : instOk nowMs d
        · have hlen1 : (acc ++ [d.instrument_name]).length ≤ 5 := by
            simp only [List.length_append, List.length_cons, List.length_nil]
            omega
          rw [if_pos hok, ih (acc ++ [d.instrument_name]) hlen1]
          have harith : 5 - acc.length = (5 - (acc ++ [d.instrument_name]).length) + 1 := by
            simp only [List.length_append, List.length_cons, List.length_nil]
            omega
          rw [List.filter_cons, if_pos hok, List.map_cons, harith, List.take_succ_cons,
            List.append_assoc, List.singleton_append]
        · rw [if_neg hok, ih acc h, List.filter_cons, if_neg hok]

/-- fetch_instruments equals taking 5 filtered names of the first 10
descriptors. -/
theorem fetch_instruments_eq (nowMs : ℕ) (insts : List Instrument) :
    fetch_instruments nowMs insts =
      (((insts.take 10).filter (instOk nowMs)).map (fun d => d.instrument_name)).take 5 := by
  by_cases h : insts = []
  · subst h; rfl
  · rw [fetch_instruments, if_neg h, selectLoop_eq nowMs _ [] (by simp)]
    rfl

/-- A successful insert appends the record: the sink accepted it. -/
theorem data_callback_ok (f : ℕ → Bool) (s : LoopState) (r : NormalizedRecord)
    (hf : f (s.insertCalls + 1) = false) (hr : r.instrument_name.isNone = false) :
    data_callback f s r =
      { s with inserted := s.inserted ++ [r], insertCalls := s.insertCalls + 1 } := by
  simp [data_callback, insert_option_data, hf, hr]

/-- A failed insert is logged and the record is dropped; the state keeps
running. -/
theorem data_callback_drop (f : ℕ → Bool) (s : LoopState) (r : NormalizedRecord)
    (h : insert_option_data f (s.insertCalls + 1) s.inserted r = none) :
    data_callback f s r =
      { s with insertCalls := s.insertCalls + 1, storageErrors := s.storageErrors + 1 } := by
  simp [data_callback, h]

/-! ## Claim C2: observed_at timestamp -/

/-- C2, counterexample: decoding a frame whose timestamp field is absent does
not set observed_at to the ingestion time 1700000000000; the code defaults the
field to 0 and builds the record at epoch zero. -/
theorem c2_claim_false : ¬ claimObservedAt tStale 1700000000000 := by
  intro h
  exact absurd (h.1 (Or.inl rfl)) (by decide)

/-- C2, amended: when the epoch-milliseconds timestamp field is absent or
zero, process_ticker_data sets the record timestamp to epoch zero (the dict
default 0 is fed to datetime.fromtimestamp), not to the ingestion time; when
the field is present its value is used as is. -/
theorem c2_observed_at (t : TickerData) :
    ((t.timestamp = none ∨ t.timestamp = some 0) → (process_ticker_data t).timestamp_ms = 0)
    ∧ (∀ ms, t.timestamp = some ms → (process_ticker_data t).timestamp_ms = ms) := by
  constructor
  · rintro (h | h) <;> simp [process_ticker_data, h]
  · intro ms h
    simp [process_ticker_data, h]

/-- C2, witness: a frame with no timestamp decodes to epoch zero and a frame
timestamped 1700000000000 keeps that value. -/
theorem c2_observed_at_witness :
    (process_ticker_data tStale).timestamp_ms = 0
    ∧ (process_ticker_data tFresh).timestamp_ms = 1700000000000 :=
  ⟨(c2_observed_at tStale).1 (Or.inl rfl), (c2_observed_at tFresh).2 1700000000000 rfl⟩

/-! ## Claim C3: price fallback -/

/-- C3, counterexample: a frame with mark_price 0.0 and last_price 41000.5
does not get price 0.0; Python or treats the present 0.0 as falsy and the
record price is 41000.5. -/
theorem c3_claim_false : ¬ claimMarkPrice tZeroMark := by
  intro h
  have h0 := h.1 0 rfl
  have h1 : (process_ticker_data tZeroMark).price = some (41000.5 : ℚ) := by
    simp [process_ticker_data, pyOr, tZeroMark]
  rw [h1] at h0
  have h2 := Option.some.inj h0
  norm_num at h2

/-- C3, amended: price equals mark price only when mark price is present and
non-zero; when mark price is absent or equal to 0.0 (falsy under the Python
or on src/deribit_client.py:234), price equals the last-price field, present
or not. -/
theorem c3_price (t : TickerData) :
    (∀ q, t.mark_price = some q → q ≠ 0 → (process_ticker_data t).price = some q)
    ∧ ((t.mark_price = none ∨ t.mark_price = some 0) →
        (process_ticker_data t).price = t.last_price) := by
  constructor
  · intro q h hq
    simp [process_ticker_data, pyOr, h, hq]
  · rintro (h | h) <;> simp [process_ticker_data, pyOr, h]

/-- C3, witness: a non-zero mark price 42 is kept, and a zero mark price
falls through to the last-price field. -/
theorem c3_price_witness :
    (process_ticker_data tMark).price = some 42
    ∧ (process_ticker_data tZeroMark).price = tZeroMark.last_price :=
  ⟨(c3_price tMark).1 42 rfl (by norm_num), (c3_price tZeroMark).2 (Or.inr rfl)⟩

/-! ## Claim C4: malformed frames -/

/-- C4, counterexample: a data-push frame missing the instrument identity
field does not decode to nothing; process_ticker_data builds a record with an
absent name and hands it to the sink, so the insert-call count rises to 1. -/
theorem c4_claim_false : ¬ claimNoNamelessHandoff tNoName := by
  intro h
  exact absurd (h rfl) (by decide)

/-- C4, amended: an unparseable payload is caught by the inner handler of
listen, logged, inserts nothing, and the session continues; a data-push frame
missing the instrument identity field still produces a record that is handed
to the sink, where the NOT NULL insert fails and is logged as a storage
error, the row is not persisted, and the session continues in every case. -/
theorem c4_contained (f : ℕ → Bool) (s : LoopState) (t : TickerData)
    (h : t.instrument_name = none) :
    (listenStep f s WsEvent.badJson).inserted = s.inserted
    ∧ (listenStep f s WsEvent.badJson).insertCalls = s.insertCalls
    ∧ (listenStep f s WsEvent.badJson).msgErrors = s.msgErrors + 1
    ∧ (listenStep failOn0 s (WsEvent.frame t)).insertCalls = s.insertCalls + 1
    ∧ (listenStep failOn0 s (WsEvent.frame t)).inserted = s.inserted
    ∧ (listenStep failOn0 s (WsEvent.frame t)).storageErrors = s.storageErrors + 1 := by
  have hdrop : data_callback failOn0 s (process_ticker_data t) =
      { s with insertCalls := s.insertCalls + 1, storageErrors := s.storageErrors + 1 } :=
    data_callback_drop failOn0 s _
      (by simp [insert_option_data, failOn0, process_ticker_data, h])
  refine ⟨rfl, rfl, rfl, ?_, ?_, ?_⟩ <;> simp [listenStep, hdrop]

/-- C4, witness: from the initial state, one unparseable message logs one
error, and one nameless data-push frame makes one rejected insert attempt,
persisting nothing. -/
theorem c4_contained_witness :
    (listenStep failOn0 initState WsEvent.badJson).msgErrors = 1
    ∧ (listenStep failOn0 initState (WsEvent.frame tNoName)).insertCalls = 1
    ∧ (listenStep failOn0 initState (WsEvent.frame tNoName)).inserted = []
    ∧ (listenStep failOn0 initState (WsEvent.frame tNoName)).storageErrors = 1 := by
  have h := c4_contained failOn0 initState tNoName rfl
  exact ⟨h.2.2.1, h.2.2.2.1, h.2.2.2.2.1, h.2.2.2.2.2⟩

/-! ## Claim C6: empty discovery -/

/-- C6, counterexample: both halves of the claim fail on the code. With an
empty discovery response the run returns normally and the process exit code
is 0, not non-zero (no NoInstrumentsError exists; src/main.py:99-101 logs
and returns). And the exit-non-zero-only-on discipline fails too: a mid-run
error escaping listen (a failed keepalive send after an idle timeout,
src/deribit_client.py:213-227) exits non-zero although it is neither a
fatal startup failure nor explicit termination. -/
theorem c6_claim_false :
    ¬ claimEmptyExitsNonzero [] 0 failOn0 [] RunOutcome.raisedMidRun
    ∧ (run ([] : List Instrument) 0 failOn0 []).exitCode = 0
    ∧ exit_code RunOutcome.raisedMidRun ≠ 0
    ∧ RunOutcome.raisedMidRun ≠ RunOutcome.raisedStartup
    ∧ RunOutcome.raisedMidRun ≠ RunOutcome.keyboardInterrupt :=
  ⟨fun h => absurd (h.1 rfl) (by decide), by decide, by decide, by decide, by decide⟩

/-- C6, amended: when instrument selection comes back empty, run logs an
error and returns normally without connecting, authenticating, or
subscribing, and the process exits zero; and the process exits non-zero
exactly when an exception escapes the collector - a fatal startup failure or
a mid-run error escaping the listen loop (such as a failed keepalive send) -
while a normal return and explicit termination exit zero. -/
theorem c6_empty_discovery (discovery : List Instrument) (nowMs : ℕ) (f : ℕ → Bool)
    (events : List WsEvent) (h : fetch_instruments nowMs discovery = []) :
    run discovery nowMs f events =
      { connects := 0, auths := 0, subscribeCalls := 0, loopState := initState,
        exitCode := 0 }
    ∧ ∀ o : RunOutcome, exit_code o ≠ 0 ↔
        (o = RunOutcome.raisedStartup ∨ o = RunOutcome.raisedMidRun) := by
  refine ⟨by rw [run, if_pos (by simp [h])], ?_⟩
  intro o
  cases o <;> simp [exit_code]

/-- C6, witness: the run over an empty discovery response does nothing and
exits zero, and the mid-run-error outcome is among the non-zero exits. -/
theorem c6_empty_discovery_witness :
    run ([] : List Instrument) 0 failOn0 [] =
      { connects := 0, auths := 0, subscribeCalls := 0, loopState := initState,
        exitCode := 0 }
    ∧ (exit_code RunOutcome.raisedMidRun ≠ 0 ↔
        (RunOutcome.raisedMidRun = RunOutcome.raisedStartup
          ∨ RunOutcome.raisedMidRun = RunOutcome.raisedMidRun)) :=
  ⟨(c6_empty_discovery [] 0 failOn0 [] rfl).1,
    (c6_empty_discovery [] 0 failOn0 [] rfl).2 RunOutcome.raisedMidRun⟩

/-! ## Claim C9: persisted records -/

/-- C9, counterexample: a frame whose instrument name is the empty string
decodes to a record the sink accepts (NOT NULL admits the empty string), so a
persisted record can violate the non-empty half of the claimed invariant. -/
theorem c9_claim_false : ¬ claimPersistedNamed tEmptyName 1 [] := by
  intro h
  exact (h ([] ++ [process_ticker_data tEmptyName]) rfl).2 rfl

/-- C9, amended: every record the sink accepts has a present instrument name
(the NOT NULL column constraint rejects an absent one), but the name may be
the empty string; price, volatility, and delta are each independently
optional: a record carrying only a name and timestamp is accepted. -/
theorem c9_persisted (f : ℕ → Bool) (idx : ℕ) (db db2 : List NormalizedRecord)
    (r : NormalizedRecord) (h : insert_option_data f idx db r = some db2) :
    (r.instrument_name ≠ none ∧ db2 = db ++ [r])
    ∧ ∀ (nm : String) (ts : ℕ) (db3 : List NormalizedRecord),
        insert_option_data failOn0 idx db3 (bareRecord nm ts) =
          some (db3 ++ [bareRecord nm ts]) := by
  constructor
  · rw [insert_option_data] at h
    by_cases hf : f idx
    · rw [if_pos hf] at h
      exact absurd h (by simp)
    · rw [if_neg hf] at h
      by_cases hn : r.instrument_name.isNone
      · rw [if_pos hn] at h
        exact absurd h (by simp)
      · rw [if_neg hn] at h
        refine ⟨?_, (Option.some.inj h).symm⟩
        intro e
        rw [e] at hn
        exact hn rfl
  · intro nm ts db3
    rfl

/-- C9, witness: the record decoded from a well-formed frame, once accepted
by the sink, has a present instrument name. -/
theorem c9_persisted_witness :
    (process_ticker_data tGoodA).instrument_name ≠ none :=
  ((c9_persisted failOn0 1 [] ([] ++ [process_ticker_data tGoodA])
    (process_ticker_data tGoodA) rfl).1).1

/-! ## Claim C10: REST discovery never raises -/

/-- C10: get_instruments is total over every modelled HTTP outcome: a non-200
response, a body whose parsing raises, and an exception during the exchange
all return the empty list, which is exactly what a genuinely empty 200
response returns, so the caller cannot tell the cases apart. -/
theorem c10_get_instruments (o : RestOutcome) :
    (∀ s b, o = RestOutcome.response s b → s ≠ 200 → get_instruments o = [])
    ∧ (∀ s, o = RestOutcome.response s none → get_instruments o = [])
    ∧ (o = RestOutcome.exn → get_instruments o = [])
    ∧ get_instruments (RestOutcome.response 200 (some [])) = [] := by
  refine ⟨?_, ?_, ?_, rfl⟩
  · rintro s b rfl hs
    simp [get_instruments, get_instruments_body, hs]
  · rintro s rfl
    by_cases hs : s = 200 <;> simp [get_instruments, get_instruments_body, hs]
  · rintro rfl
    rfl

/-- C10, witness: a 500 response carrying a body, a raised exception, and a
genuinely empty 200 response all yield the empty list. -/
theorem c10_get_instruments_witness :
    get_instruments (RestOutcome.response 500 (some demo10)) = []
    ∧ get_instruments RestOutcome.exn = []
    ∧ get_instruments (RestOutcome.response 200 (some [])) = [] := by
  have h := c10_get_instruments (RestOutcome.response 500 (some demo10))
  have h2 := c10_get_instruments RestOutcome.exn
  exact ⟨h.1 500 (some demo10) rfl (by decide), h2.2.2.1 rfl, h.2.2.2⟩

/-! ## Claim C1: reconnect after transport error -/

/-- C1, counterexample: over a transport script delivering two frames, then a
transport-level receive error, then another frame, the run performs no second
connect, no second authentication, and no subscribe call at all: the inner
handler of listen swallows the error and the loop continues on the same
session. -/
theorem c1_claim_false :
    ¬ claimReconnects demoDiscovery 1000 failOn0
      [WsEvent.frame tGoodA, WsEvent.frame tGoodB, WsEvent.recvError,
        WsEvent.frame tGoodC] := by
  intro h
  have hc := h ⟨[WsEvent.frame tGoodA, WsEvent.frame tGoodB], [WsEvent.frame tGoodC],
    rfl, tGoodA, List.mem_cons_self _ _⟩
  exact absurd hc.1 (by decide)

/-- C1, amended: on a transport-level receive error the inner
except-Exception handler of listen logs it and the loop keeps receiving on
the same session: over a run that sees two frames, a receive error, and a
third frame, exactly one connect and one authentication happen, no
subscribe_to_ticker call is ever made (listen never returns to
start_websocket_client), the error is logged once, delivery resumes with the
third record, and the process does not terminate (exit code 0 with the loop
still running). -/
theorem c1_no_reconnect (discovery : List Instrument) (nowMs : ℕ)
    (t1 t2 t3 : TickerData)
    (hne : (fetch_instruments nowMs discovery).isEmpty = false)
    (h1 : t1.instrument_name.isNone = false)
    (h2 : t2.instrument_name.isNone = false)
    (h3 : t3.instrument_name.isNone = false) :
    run discovery nowMs failOn0
      [WsEvent.frame t1, WsEvent.frame t2, WsEvent.recvError, WsEvent.frame t3] =
      { connects := 1, auths := 1, subscribeCalls := 0,
        loopState :=
          ⟨[process_ticker_data t1, process_ticker_data t2, process_ticker_data t3],
            3, 0, 1, 0⟩,
        exitCode := 0 } := by
  have s1 : listenStep failOn0 initState (WsEvent.frame t1) =
      ⟨[process_ticker_data t1], 1, 0, 0, 0⟩ :=
    data_callback_ok failOn0 initState (process_ticker_data t1) rfl h1
  have s2 : listenStep failOn0 ⟨[process_ticker_data t1], 1, 0, 0, 0⟩
      (WsEvent.frame t2) =
      ⟨[process_ticker_data t1, process_ticker_data t2], 2, 0, 0, 0⟩ :=
    data_callback_ok failOn0 _ (process_ticker_data t2) rfl h2
  have s3 : listenStep failOn0
      ⟨[process_ticker_data t1, process_ticker_data t2], 2, 0, 0, 0⟩
      WsEvent.recvError =
      ⟨[process_ticker_data t1, process_ticker_data t2], 2, 0, 1, 0⟩ := rfl
  have s4 : listenStep failOn0
      ⟨[process_ticker_data t1, process_ticker_data t2], 2, 0, 1, 0⟩
      (WsEvent.frame t3) =
      ⟨[process_ticker_data t1, process_ticker_data t2, process_ticker_data t3],
        3, 0, 1, 0⟩ :=
    data_callback_ok failOn0 _ (process_ticker_data t3) rfl h3
  have hlst : listen failOn0 initState
      [WsEvent.frame t1, WsEvent.frame t2, WsEvent.recvError, WsEvent.frame t3] =
      ⟨[process_ticker_data t1, process_ticker_data t2, process_ticker_data t3],
        3, 0, 1, 0⟩ := by
    show listenStep failOn0 (listenStep failOn0 (listenStep failOn0
      (listenStep failOn0 initState (WsEvent.frame t1)) (WsEvent.frame t2))
      WsEvent.recvError) (WsEvent.frame t3) = _
    rw [s1, s2, s3, s4]
  rw [run, if_neg (by simp [hne]), hlst]

/-- C1, witness: the no-reconnect behavior at a concrete discovery response
and three concrete frames around a receive error. -/
theorem c1_no_reconnect_witness :
    run demoDiscovery 1000 failOn0
      [WsEvent.frame tGoodA, WsEvent.frame tGoodB, WsEvent.recvError,
        WsEvent.frame tGoodC] =
      { connects := 1, auths := 1, subscribeCalls := 0,
        loopState :=
          ⟨[process_ticker_data tGoodA, process_ticker_data tGoodB,
            process_ticker_data tGoodC], 3, 0, 1, 0⟩,
        exitCode := 0 } :=
  c1_no_reconnect demoDiscovery 1000 tGoodA tGoodB tGoodC (by decide) rfl rfl rfl

/-! ## Claim C5: instrument selection -/

/-- C5: selection yields at most 5 names, each the name of an active,
non-expired descriptor of the response, in response order (a sublist of the
response names); and for a 10-descriptor response of which 8 pass the
activity/expiry filter, the result is exactly the first 5 filtered names. -/
theorem c5_selection (nowMs : ℕ) (insts : List Instrument) :
    ((fetch_instruments nowMs insts).length ≤ 5
      ∧ (∀ n ∈ fetch_instruments nowMs insts,
          ∃ d ∈ insts, instOk nowMs d = true ∧ d.instrument_name = n)
      ∧ List.Sublist (fetch_instruments nowMs insts)
          (insts.map (fun d => d.instrument_name)))
    ∧ (insts.length = 10 → List.countP (instOk nowMs) insts = 8 →
        fetch_instruments nowMs insts =
          ((insts.filter (instOk nowMs)).map (fun d => d.instrument_name)).take 5
        ∧ (fetch_instruments nowMs insts).length = 5) := by
  have heq := fetch_instruments_eq nowMs insts
  constructor
  · refine ⟨?_, ?_, ?_⟩
    · rw [heq, List.length_take]
      exact Nat.min_le_left _ _
    · intro n hn
      rw [heq] at hn
      have hn2 := (List.take_sublist 5 _).subset hn
      obtain ⟨d, hd, rfl⟩ := List.mem_map.mp hn2
      have hd2 := List.mem_filter.mp hd
      exact ⟨d, (List.take_sublist 10 insts).subset hd2.1, hd2.2, rfl⟩
    · rw [heq]
      refine (List.take_sublist _ _).trans ?_
      exact ((List.filter_sublist _).map _).trans ((List.take_sublist _ _).map _)
  · intro h10 h8
    have htake : insts.take 10 = insts := List.take_of_length_le (by omega)
    rw [heq, htake]
    refine ⟨rfl, ?_⟩
    rw [List.length_take, List.length_map, ← List.countP_eq_length_filter, h8]
    decide

/-- C5, witness: a concrete 10-descriptor response with 8 active non-expired
and 2 expired entries selects exactly the first 5 filtered names. -/
theorem c5_selection_witness :
    demo10.length = 10 ∧ List.countP (instOk 1000) demo10 = 8 ∧
    fetch_instruments 1000 demo10 =
      ((demo10.filter (instOk 1000)).map (fun d => d.instrument_name)).take 5 :=
  ⟨by decide, by decide, (((c5_selection 1000 demo10).2 (by decide) (by decide))).1⟩

/-! ## Claim C7: sink failure containment -/

/-- C7: a failed sink insert is logged as one storage error and the record is
dropped while the loop keeps running (general containment, first conjunct);
with a sink that fails exactly on the 3rd insert call, five delivered frames
yield the persisted records 1, 2, 4, 5 in order, five insert attempts, and
exactly one storage error, with no termination. -/
theorem c7_storage_failure (t1 t2 t3 t4 t5 : TickerData)
    (h1 : t1.instrument_name.isNone = false) (h2 : t2.instrument_name.isNone = false)
    (h4 : t4.instrument_name.isNone = false) (h5 : t5.instrument_name.isNone = false) :
    (∀ (f : ℕ → Bool) (s : LoopState) (r : NormalizedRecord),
        insert_option_data f (s.insertCalls + 1) s.inserted r = none →
        data_callback f s r = { s with insertCalls := s.insertCalls + 1, storageErrors := s.storageErrors + 1 })
    ∧ listen failOn3 initState
        [WsEvent.frame t1, WsEvent.frame t2, WsEvent.frame t3, WsEvent.frame t4,
          WsEvent.frame t5] =
      ⟨[process_ticker_data t1, process_ticker_data t2, process_ticker_data t4,
        process_ticker_data t5], 5, 1, 0, 0⟩ := by
  refine ⟨data_callback_drop, ?_⟩
  have s1 : listenStep failOn3 initState (WsEvent.frame t1) =
      ⟨[process_ticker_data t1], 1, 0, 0, 0⟩ :=
    data_callback_ok failOn3 initState (process_ticker_data t1) rfl h1
  have s2 : listenStep failOn3 ⟨[process_ticker_data t1], 1, 0, 0, 0⟩
      (WsEvent.frame t2) =
      ⟨[process_ticker_data t1, process_ticker_data t2], 2, 0, 0, 0⟩ :=
    data_callback_ok failOn3 _ (process_ticker_data t2) rfl h2
  have s3 : listenStep failOn3
      ⟨[process_ticker_data t1, process_ticker_data t2], 2, 0, 0, 0⟩
      (WsEvent.frame t3) =
      ⟨[process_ticker_data t1, process_ticker_data t2], 3, 1, 0, 0⟩ :=
    data_callback_drop failOn3
      ⟨[process_ticker_data t1, process_ticker_data t2], 2, 0, 0, 0⟩
      (process_ticker_data t3) rfl
  have s4 : listenStep failOn3
      ⟨[process_ticker_data t1, process_ticker_data t2], 3, 1, 0, 0⟩
      (WsEvent.frame t4) =
      ⟨[process_ticker_data t1, process_ticker_data t2, process_ticker_data t4],
        4, 1, 0, 0⟩ :=
    data_callback_ok failOn3 _ (process_ticker_data t4) rfl h4
  have s5 : listenStep failOn3
      ⟨[process_ticker_data t1, process_ticker_data t2, process_ticker_data t4],
        4, 1, 0, 0⟩
      (WsEvent.frame t5) =
      ⟨[process_ticker_data t1, process_ticker_data t2, process_ticker_data t4,
        process_ticker_data t5], 5, 1, 0, 0⟩ :=
    data_callback_ok failOn3 _ (process_ticker_data t5) rfl h5
  show listenStep failOn3 (listenStep failOn3 (listenStep failOn3 (listenStep failOn3
    (listenStep failOn3 initState (WsEvent.frame t1)) (WsEvent.frame t2))
    (WsEvent.frame t3)) (WsEvent.frame t4)) (WsEvent.frame t5) = _
  rw [s1, s2, s3, s4, s5]

/-- C7, witness: the fail-on-third-insert scenario at five concrete frames. -/
theorem c7_storage_failure_witness :
    listen failOn3 initState
      [WsEvent.frame tGoodA, WsEvent.frame tGoodB, WsEvent.frame tGoodC,
        WsEvent.frame tStale, WsEvent.frame tFresh] =
      ⟨[process_ticker_data tGoodA, process_ticker_data tGoodB,
        process_ticker_data tStale, process_ticker_data tFresh], 5, 1, 0, 0⟩ :=
  (c7_storage_failure tGoodA tGoodB tGoodC tStale tFresh rfl rfl rfl rfl).2

/-! ## Claim C8: single-round-trip subscription -/

/-- C8: on an authenticated session subscribe_to_ticker sends exactly one
request listing the channel ticker.name.raw for every requested instrument;
on an acknowledged success the subscribed set becomes the union of the old
set and the requested names, and on either failure mode (a reply without a
result key, or a raised transport error) the subscribed set is unchanged. -/
theorem c8_subscribe (subscribed names : List String) (resp : SubResponse) :
    (subscribe_to_ticker true subscribed names resp).sentRequests =
      [names.map channelOf]
    ∧ (∀ n, n ∈ (subscribe_to_ticker true subscribed names SubResponse.ack).subscribed ↔
        n ∈ subscribed ∨ n ∈ names)
    ∧ (resp ≠ SubResponse.ack →
        (subscribe_to_ticker true subscribed names resp).subscribed = subscribed) := by
  refine ⟨?_, ?_, ?_⟩
  · cases resp <;> rfl
  · intro n
    simpa [subscribe_to_ticker] using mem_setUpdate names subscribed n
  · intro hne
    cases resp with
    | ack => exact absurd rfl hne
    | nack => rfl
    | raiseErr => rfl

/-- C8, witness: one concrete subscription: the single request carries the
fully formed channel name, an acknowledged call adds the new name to the set,
and a refused call leaves the set exactly as before. -/
theorem c8_subscribe_witness :
    (subscribe_to_ticker true ["BTC-A"] ["BTC-B"] SubResponse.ack).sentRequests =
      [["ticker.BTC-B.raw"]]
    ∧ "BTC-B" ∈ (subscribe_to_ticker true ["BTC-A"] ["BTC-B"] SubResponse.ack).subscribed
    ∧ (subscribe_to_ticker true ["BTC-A"] ["BTC-B"] SubResponse.nack).subscribed =
      ["BTC-A"] := by
  have hack := c8_subscribe ["BTC-A"] ["BTC-B"] SubResponse.ack
  have hnack := c8_subscribe ["BTC-A"] ["BTC-B"] SubResponse.nack
  refine ⟨hack.1, ?_, hnack.2.2 (by decide)⟩
  exact (hack.2.1 "BTC-B").mpr (Or.inr (List.mem_cons_self _ _))

end RaghavCapital
